import Mathlib

/-!
Verification development for the DocuMind client repository.

The session-identifier subsystem (utils/session.ts, the elaborated revision)
is embedded as a state-passing model: browser storage tiers are explicit
key-value maps, the module-level memory cache and the generation randomness
are fields of an explicit world record, and every storage access follows the
source line by line.  The upload widgets and the chat widget are embedded as
pure functions from their inputs to the list of effects they emit and the
state they leave behind.
-/

namespace DocuMind

/-! ## Browser key-value storage (localStorage / sessionStorage) -/

/-- A storage object maps each key to an optional string value. -/
def Store := String → Option String

/-- storage.getItem(k) -/
def Store.get (s : Store) (k : String) : Option String := s k

/-- storage.setItem(k, v) -/
def Store.put (s : Store) (k v : String) : Store :=
  fun q => if q = k then some v else s q

/-- storage.removeItem(k) -/
def Store.del (s : Store) (k : String) : Store :=
  fun q => if q = k then none else s q

/-- A storage object with no keys. -/
def Store.empty : Store := fun _ => none

/-- JavaScript truthiness of a nullable string: null and the empty string are
falsy, every other string is truthy. -/
def truthy : Option String → Bool
  | none => false
  | some s => s != ""

/-! ## JavaScript number and string primitives used by the source -/

/-- String.prototype.trim: strip whitespace from both ends. -/
def jsTrim (s : String) : String :=
  String.mk (((s.data.dropWhile Char.isWhitespace).reverse.dropWhile
    Char.isWhitespace).reverse)

/-- The WhiteSpace and LineTerminator code points JavaScript parseInt skips
before parsing: tab, line feed, vertical tab, form feed, carriage return,
space, no-break space, ogham space mark, the en-quad..hair-space range, the
line and paragraph separators, narrow no-break space, medium mathematical
space, ideographic space, and the byte order mark. -/
def jsWhitespace (c : Char) : Bool :=
  c.toNat = 9 ∨ c.toNat = 10 ∨ c.toNat = 11 ∨ c.toNat = 12 ∨ c.toNat = 13 ∨
  c.toNat = 32 ∨ c.toNat = 160 ∨ c.toNat = 5760 ∨
  (8192 ≤ c.toNat ∧ c.toNat ≤ 8202) ∨ c.toNat = 8232 ∨ c.toNat = 8233 ∨
  c.toNat = 8239 ∨ c.toNat = 8287 ∨ c.toNat = 12288 ∨ c.toNat = 65279

/-- The value of a hexadecimal digit character, if it is one. -/
def hexDigitVal (c : Char) : Option Nat :=
  if 48 ≤ c.toNat ∧ c.toNat ≤ 57 then some (c.toNat - 48)
  else if 97 ≤ c.toNat ∧ c.toNat ≤ 102 then some (c.toNat - 87)
  else if 65 ≤ c.toNat ∧ c.toNat ≤ 70 then some (c.toNat - 55)
  else none

/-- parseInt with no radix argument: skip leading whitespace, read an
optional sign, auto-detect a 0x or 0X prefix and in that case parse a
non-empty run of hexadecimal digits, otherwise parse a non-empty run of
decimal digits; none models NaN. -/
def jsParseInt (s : String) : Option Int :=
  let cs := s.data.dropWhile jsWhitespace
  let signAndRest : Int × List Char :=
    match cs with
    | '-' :: rest => (-1, rest)
    | '+' :: rest => (1, rest)
    | _ => (1, cs)
  let isHex : Bool :=
    match signAndRest.2 with
    | '0' :: 'x' :: _ => true
    | '0' :: 'X' :: _ => true
    | _ => false
  if isHex then
    let hs := (signAndRest.2.drop 2).takeWhile (fun c => (hexDigitVal c).isSome)
    if hs.isEmpty then none
    else some (signAndRest.1 *
      (hs.foldl (fun a c => a * 16 + (hexDigitVal c).getD 0) 0 : Nat))
  else
    let ds := signAndRest.2.takeWhile Char.isDigit
    if ds.isEmpty then none
    else some (signAndRest.1 * (ds.foldl (fun a c => a * 10 + (c.toNat - 48)) 0 : Nat))

/-- Digit character for bases up to 36, lowercase as in JavaScript
Number.prototype.toString. -/
def base36Char (n : Nat) : Char :=
  if n < 10 then Char.ofNat (48 + n) else Char.ofNat (87 + n)

/-- Auxiliary loop of natToBase36, most significant digit first. -/
def natToBase36Go : Nat → List Char → List Char
  | 0, acc => acc
  | n + 1, acc => natToBase36Go ((n + 1) / 36) (base36Char ((n + 1) % 36) :: acc)
  termination_by n _ => n
  decreasing_by exact Nat.div_lt_self (Nat.succ_pos _) (by decide)

/-- n.toString(36) for a natural number n. -/
def natToBase36 (n : Nat) : String :=
  if n = 0 then "0" else String.mk (natToBase36Go n [])

/-- String.prototype.slice(0, n): the first n characters. -/
def jsSlice (s : String) (n : Nat) : String := String.mk (s.data.take n)

/-- b.toString(16).padStart(2, the zero digit) for a byte b. -/
def hexPair (b : Nat) : String := String.mk [base36Char (b / 16 % 16), base36Char (b % 16)]

/-! ## generateUUID (utils/session.ts lines 39-75) -/

/-- The ambient sources of randomness and platform capabilities that
generateUUID consults.  Randomness is a stream indexed by the number of
generation calls already made, so generation is deterministic relative to the
environment. -/
structure CryptoEnv where
  /-- The try body throws, selecting the final fallback branch. -/
  throws : Bool
  /-- crypto.randomUUID is available. -/
  hasRandomUUID : Bool
  /-- crypto.getRandomValues is available. -/
  hasGetRandomValues : Bool
  /-- The 16 random bytes drawn by generation call i (position 0..15). -/
  randomBytes : Nat → Nat → Nat
  /-- Math.random().toString(36).substring(2, 10) at generation call i. -/
  mathRandomFrac : Nat → String
  /-- Math.floor(Math.random() * 1e9) at generation call i. -/
  mathRandomInt : Nat → Nat
  /-- getDeviceFingerprint(): the joined navigator components. -/
  fingerprint : String

/-- Format 16 random bytes as the source does (lines 48-59): version and
variant bits forced on bytes 6 and 8, two lowercase hex digits per byte, a
dash appended after bytes 4, 6, 8 and 10, sliced to 36 characters.
crypto.randomUUID (line 43) is modelled with the same formatter, since the
platform likewise derives a version-4 UUID string from 16 random bytes. -/
def uuidFromBytes (b : Nat → Nat) : String :=
  let byteAt : Nat → Nat := fun j =>
    if j = 6 then (b 6) % 256 % 16 + 64
    else if j = 8 then (b 8) % 256 % 64 + 128
    else (b j) % 256
  jsSlice (String.join ((List.range 16).map (fun j =>
    hexPair (byteAt j) ++ (if j = 4 ∨ j = 6 ∨ j = 8 ∨ j = 10 then "-" else "")))) 36

/-- The tertiary timestamp-based branch (lines 62-70). -/
def sessFallbackId (env : CryptoEnv) (now : Nat) (i : Nat) : String :=
  jsSlice ("sess-" ++ natToBase36 now ++ "-" ++ env.mathRandomFrac i ++ "-" ++
    natToBase36 (env.fingerprint.data.foldl (fun a c => a + c.toNat) 0)) 50

/-- generateUUID (lines 39-75): crypto.randomUUID, then crypto.getRandomValues
with manual formatting, then the timestamp-based string, with the catch-all
fallback when the try body throws. -/
def generateUUID (env : CryptoEnv) (now : Nat) (i : Nat) : String :=
  if env.throws then
    "fallback-" ++ toString now ++ "-" ++ toString (env.mathRandomInt i)
  else if env.hasRandomUUID then
    uuidFromBytes (env.randomBytes i)
  else if env.hasGetRandomValues then
    uuidFromBytes (env.randomBytes i)
  else
    sessFallbackId env now i

/-! ## The session world: storage tiers, memory cache, randomness, channel -/

/-- Availability of one storage tier: the global is undefined, every access
throws (quota exceeded, access denied, privacy mode), or it works. -/
inductive TierAvail | absent | throwing | ok
deriving DecidableEq

/-- The two keyed storage tiers of the browser. -/
inductive Tier | loc | ses
deriving DecidableEq

/-- SESSION_KEYS.PRIMARY -/
def PRIMARY : String := "pdfrag_session_id"

/-- SESSION_KEYS.BACKUP -/
def BACKUP : String := "pdfrag_session_backup"

/-- SESSION_KEYS.TIMESTAMP -/
def TIMESTAMP : String := "pdfrag_session_ts"

/-- The probe key used by validateStorage. -/
def TEST_KEY : String := "pdfrag_storage_test"

/-- The complete state the session module can observe and mutate: the
module-level memory cache, both storage tiers with their availability, the
clock, the randomness environment with the count of generation calls made,
and the broadcast channel. -/
structure World where
  /-- typeof window is not undefined. -/
  windowDefined : Bool
  /-- The module-level memorySessionId variable. -/
  memorySessionId : Option String
  locAvail : TierAvail
  sesAvail : TierAvail
  locStore : Store
  sesStore : Store
  /-- Date.now() in milliseconds. -/
  now : Nat
  env : CryptoEnv
  /-- Number of generateUUID calls already made. -/
  genCount : Nat
  /-- SESSION_UPDATE messages posted so far, most recent first. -/
  broadcasts : List (String × Nat)
  /-- typeof BroadcastChannel is not undefined. -/
  bcAvailable : Bool

/-- The availability of a tier. -/
def World.tierAvail (w : World) : Tier → TierAvail
  | .loc => w.locAvail
  | .ses => w.sesAvail

/-- The contents of a tier. -/
def World.tierStore (w : World) : Tier → Store
  | .loc => w.locStore
  | .ses => w.sesStore

/-- Replace the contents of a tier. -/
def World.setTier (w : World) (t : Tier) (s : Store) : World :=
  match t with
  | .loc => { w with locStore := s }
  | .ses => { w with sesStore := s }

/-- The non-store fields of a world, bundled for frame reasoning. -/
def World.frame (w : World) :
    Bool × Option String × TierAvail × TierAvail × Nat × CryptoEnv × Nat × List (String × Nat) × Bool :=
  (w.windowDefined, w.memorySessionId, w.locAvail, w.sesAvail, w.now, w.env,
   w.genCount, w.broadcasts, w.bcAvailable)

/-! ## validateStorage and getAvailableStorage (lines 78-112) -/

/-- validateStorage (lines 78-91): a write-read-delete round trip on the test
key; a throwing tier makes the try body throw and yields false. -/
def validateStorage (w : World) (t : Tier) : Bool × World :=
  match w.tierAvail t with
  | .ok =>
      let s := w.tierStore t
      let testValue := "test-" ++ toString w.now
      let s1 := s.put TEST_KEY testValue
      let retrieved := s1.get TEST_KEY
      let s2 := s1.del TEST_KEY
      (retrieved == some testValue, w.setTier t s2)
  | _ => (false, w)

/-- getAvailableStorage (lines 94-112): localStorage when defined and valid,
else sessionStorage when defined and valid, else none. -/
def getAvailableStorage (w : World) : Option Tier × World :=
  if !w.windowDefined then (none, w)
  else if w.locAvail != .absent then
    let r := validateStorage w .loc
    if r.1 then (some .loc, r.2)
    else if r.2.sesAvail != .absent then
      let r2 := validateStorage r.2 .ses
      if r2.1 then (some .ses, r2.2) else (none, r2.2)
    else (none, r.2)
  else if w.sesAvail != .absent then
    let r := validateStorage w .ses
    if r.1 then (some .ses, r.2) else (none, r.2)
  else (none, w)

/-- The tier getAvailableStorage settles on, as a pure observation: the first
tier in priority order that is defined and passes validation. -/
def availTier (w : World) : Option Tier :=
  if !w.windowDefined then none
  else if w.locAvail = .ok then some .loc
  else if w.sesAvail = .ok then some .ses
  else none

/-! ## Cross-tab synchronization (lines 115-146) -/

/-- setupSessionSync (lines 115-146), sender side: post a SESSION_UPDATE
message carrying the identifier and the current time; silently a no-op when
window or BroadcastChannel is unavailable. -/
def setupSessionSync (sessionId : String) (w : World) : World :=
  if w.windowDefined && w.bcAvailable then
    { w with broadcasts := (sessionId, w.now) :: w.broadcasts }
  else w

/-- The message listener installed by setupSessionSync (lines 121-130): on a
SESSION_UPDATE message carrying x, write x and a fresh timestamp into the
available storage tier when there is one, and adopt x into the memory cache. -/
def onSessionUpdate (x : String) (w : World) : World :=
  let r := getAvailableStorage w
  let w2 := match r.1 with
    | some t => r.2.setTier t (((r.2.tierStore t).put PRIMARY x).put TIMESTAMP (toString r.2.now))
    | none => r.2
  { w2 with memorySessionId := some x }

/-! ## getSessionId (lines 149-217) -/

/-- The 30-day retention window in milliseconds. -/
def RETENTION_MS : Int := 30 * 24 * 60 * 60 * 1000

/-- Strategy 1 of getSessionId (lines 160-184): read the stored identifier,
and when it is truthy, discard and clear it if it is malformed (shorter than
10 characters) or expired.  The source computes the age as
timestamp ? Date.now() - parseInt(timestamp) : Infinity, a truthiness test:
a null or empty-string timestamp gives an Infinity age, hence expired; a
truthy but unparseable timestamp gives a NaN age, and the NaN comparison
against the window is false, hence not expired. -/
def readStoredSession (w : World) (t : Tier) : Option String × World :=
  let sid := (w.tierStore t).get PRIMARY
  if truthy sid then
    let ts := (w.tierStore t).get TIMESTAMP
    let isMalformed := (sid.getD "").length < 10
    let isExpired :=
      if truthy ts then
        match jsParseInt (ts.getD "") with
        | none => false
        | some tv => ((w.now : Int) - tv > RETENTION_MS : Bool)
      else true
    if isMalformed || isExpired then
      (none, w.setTier t (((w.tierStore t).del PRIMARY).del TIMESTAMP))
    else (sid, w)
  else (sid, w)

/-- Whether the stored identifier of a tier fails the validation of
getSessionId strategy 1: falsy, shorter than 10 characters, or expired, a
falsy (absent or empty-string) timestamp counting as expired exactly as in
readStoredSession. -/
def storedSessionInvalid (w : World) (t : Tier) : Bool :=
  let sid := (w.tierStore t).get PRIMARY
  if truthy sid then
    ((sid.getD "").length < 10 : Bool) ||
      (if truthy ((w.tierStore t).get TIMESTAMP) then
        match jsParseInt (((w.tierStore t).get TIMESTAMP).getD "") with
        | none => false
        | some tv => ((w.now : Int) - tv > RETENTION_MS : Bool)
      else true)
  else true

/-- Strategy 2 of getSessionId, the save step (lines 190-207): write the new
identifier and a fresh timestamp to the selected tier; when that tier is
localStorage and sessionStorage is defined, mirror the identifier into the
backup key, ignoring a throwing sessionStorage. -/
def saveNewSession (w : World) (storage : Option Tier) (newId : String) : World :=
  match storage with
  | some t =>
      let w1 := w.setTier t (((w.tierStore t).put PRIMARY newId).put TIMESTAMP (toString w.now))
      if t = .loc ∧ w1.sesAvail ≠ .absent then
        match w1.sesAvail with
        | .ok => w1.setTier .ses (w1.sesStore.put BACKUP newId)
        | _ => w1
      else w1
  | none => w

/-- Strategy 2 of getSessionId (lines 186-216): generate a new identifier,
save it, set up cross-tab synchronization, cache it and return it. -/
def finishNewSession (w : World) (storage : Option Tier) : String × World :=
  let newId := generateUUID w.env w.now w.genCount
  let w3 := { w with genCount := w.genCount + 1 }
  let w4 := saveNewSession w3 storage newId
  let w5 := setupSessionSync newId w4
  (newId, { w5 with memorySessionId := some newId })

/-- getSessionId (lines 149-217): the memory cache short-circuits; otherwise
the stored identifier is read and validated, and when none survives a new one
is generated, saved, broadcast and cached. -/
def getSessionId (w : World) : String × World :=
  if !w.windowDefined then ("server-default", w)
  else if truthy w.memorySessionId then (w.memorySessionId.getD "", w)
  else
    let r := getAvailableStorage w
    let read : Option String × World :=
      match r.1 with
      | none => (none, r.2)
      | some t => readStoredSession r.2 t
    if !truthy read.1 then finishNewSession read.2 r.1
    else
      (read.1.getD "", { read.2 with memorySessionId := read.1 })

/-! ## sessionManager.refreshSession and clearSession (lines 225-267) -/

/-- refreshSession (lines 225-249): generate a new identifier
unconditionally, cache it, clear the old keys and persist the new identifier
with a fresh timestamp in the available tier, and broadcast it. -/
def refreshSession (w : World) : String × World :=
  if !w.windowDefined then ("server-default", w)
  else
    let r := getAvailableStorage w
    let newId := generateUUID r.2.env r.2.now r.2.genCount
    let w2 := { r.2 with genCount := r.2.genCount + 1, memorySessionId := some newId }
    let w3 :=
      match r.1 with
      | some t =>
          let s := (((w2.tierStore t).del PRIMARY).del BACKUP).del TIMESTAMP
          w2.setTier t ((s.put PRIMARY newId).put TIMESTAMP (toString w2.now))
      | none => w2
    (newId, setupSessionSync newId w3)

/-- clearSession (lines 252-267): drop the memory cache and remove the three
session keys from the available tier. -/
def clearSession (w : World) : World :=
  if !w.windowDefined then w
  else
    let w1 := { w with memorySessionId := none }
    let r := getAvailableStorage w1
    match r.1 with
    | some t => r.2.setTier t ((((r.2.tierStore t).del PRIMARY).del BACKUP).del TIMESTAMP)
    | none => r.2

/-! ## Per-component session identifiers -/

/-- The private getSessionId of FileUploadComponent (file-upload lines
320-329): reads the key named sessionId from localStorage directly and, when
it is falsy, stores a freshly generated UUID under it; the crypto.randomUUID
result is the uuid argument. -/
def fileUploadGetSessionId (s : Store) (uuid : String) : String × Store :=
  let sessionId := s.get "sessionId"
  if !truthy sessionId then (uuid, s.put "sessionId" uuid)
  else (sessionId.getD "", s)

/-- The session identifier ChatComponent sends (chat.tsx line 42): the value
of the key named sessionId in localStorage, or the default when falsy. -/
def chatSessionId (s : Store) : String :=
  match s.get "sessionId" with
  | some v => if v != "" then v else "default"
  | none => "default"

/-! ## Upload-status polling (file-upload lines 334-386, AudioUploadComponent
lines 35-100)

Each timer tick issues one status request and observes one of: a thrown or
non-ok fetch (err), the file missing from the response, a processing status,
or a terminal ready / failed status.  The loops are modelled over the stream
of tick observations with a tick budget derived from the timeout ceiling and
the tick period; the pair returned is the loop outcome together with the
number of status requests issued. -/

/-- What one polling tick observes. -/
inductive PollTick | err | notFound | processing | ready | failed
deriving DecidableEq

/-- How a polling loop ends. -/
inductive PollOutcome | resolvedReady | rejectedFailed | rejectedError | rejectedTimeout
deriving DecidableEq

/-- PDF ticks: a 2000 ms interval under a 5 minute timeout. -/
def pdfMaxTicks : Nat := 5 * 60 * 1000 / 2000

/-- Audio ticks: a 3000 ms interval under a 10 minute timeout. -/
def audioMaxTicks : Nat := 10 * 60 * 1000 / 3000

/-- The PDF polling loop body (lines 336-376): a throwing or non-ok fetch
clears the interval and rejects; ready and failed clear the interval; any
other observation leaves the interval running. -/
def pdfPollAux (s : Nat → PollTick) (i : Nat) : Nat → PollOutcome × Nat
  | 0 => (.rejectedTimeout, 0)
  | fuel + 1 =>
    match s i with
    | .ready => (.resolvedReady, 1)
    | .failed => (.rejectedFailed, 1)
    | .err => (.rejectedError, 1)
    | _ =>
        let r := pdfPollAux s (i + 1) fuel
        (r.1, r.2 + 1)

/-- The PDF polling loop with its 5 minute budget (lines 334-386). -/
def pdfPoll (s : Nat → PollTick) : PollOutcome × Nat := pdfPollAux s 0 pdfMaxTicks

/-- The audio polling loop body (lines 37-92): a poll error is only logged
and the interval keeps running; only ready and failed clear the interval. -/
def audioPollAux (s : Nat → PollTick) (i : Nat) : Nat → PollOutcome × Nat
  | 0 => (.rejectedTimeout, 0)
  | fuel + 1 =>
    match s i with
    | .ready => (.resolvedReady, 1)
    | .failed => (.rejectedFailed, 1)
    | _ =>
        let r := audioPollAux s (i + 1) fuel
        (r.1, r.2 + 1)

/-- The audio polling loop with its 10 minute budget (lines 35-100). -/
def audioPoll (s : Nat → PollTick) : PollOutcome × Nat := audioPollAux s 0 audioMaxTicks

/-- The PDF widget flags set when the loop ends: isProcessing and isUploaded
(lines 357-367, 379-384). -/
def pdfFlagsAfter : PollOutcome → Bool × Bool
  | .resolvedReady => (false, true)
  | _ => (false, false)

/-- The audio widget flags set when the loop ends: isProcessing, isUploaded
and isFailed (lines 68-85, 94-99). -/
def audioFlagsAfter : PollOutcome → Bool × Bool × Bool
  | .resolvedReady => (false, true, false)
  | .rejectedFailed => (false, false, true)
  | .rejectedError => (false, false, true)
  | .rejectedTimeout => (false, false, true)

/-- A tick is a terminal processing status. -/
def isTerminalTick : PollTick → Bool
  | .ready => true
  | .failed => true
  | _ => false

/-- A tick that stops the PDF loop: terminal status or poll error. -/
def isPdfStopTick : PollTick → Bool
  | .ready => true
  | .failed => true
  | .err => true
  | _ => false

/-- The outcome a stopping tick produces. -/
def tickOutcome : PollTick → PollOutcome
  | .ready => .resolvedReady
  | .failed => .rejectedFailed
  | .err => .rejectedError
  | _ => .rejectedTimeout

/-- Index of the first tick at or after i satisfying p, within the fuel. -/
def firstHit (p : PollTick → Bool) (s : Nat → PollTick) (i : Nat) : Nat → Option Nat
  | 0 => none
  | fuel + 1 => if p (s i) then some i else firstHit p s (i + 1) fuel

/-! ## User-visible handler effects (auth gate and audio validation) -/

/-- An externally visible effect emitted synchronously by a handler. -/
inductive Effect
  | toast (msg : String)
  | alert (msg : String)
  | openFileDialog
  | request (endpoint : String)
deriving DecidableEq

/-- FileUploadComponent.handleFileUploadButtonClick, gate and dialog (lines
388-397): when not signed in, show the auth toast and return; otherwise open
the file picker.  The toast text is the description built by useAuthToast. -/
def pdfHandleUploadClick (isSignedIn : Bool) : List Effect :=
  if !isSignedIn then [.toast "Please login or sign up to upload PDF files"]
  else [.openFileDialog]

/-- AudioUploadComponent.handleFileUploadButtonClick, gate and dialog
(AudioUploadComponent lines 102-110). -/
def audioHandleUploadClick (isSignedIn : Bool) : List Effect :=
  if !isSignedIn then [.toast "Please login or sign up to upload audio files"]
  else [.openFileDialog]

/-- The chat widget state touched by handleSend. -/
structure ChatState where
  /-- Pairs of an is-user flag and the message content. -/
  messages : List (Bool × String)
  input : String
  isLoading : Bool
deriving DecidableEq

/-- ChatComponent.handleSend up to dispatching the chat request (chat.tsx
lines 30-48): blank input or a send already in flight returns silently; a
signed-out user gets the auth toast; otherwise the user message is appended,
the input cleared, the loading flag set and the request issued. -/
def chatHandleSend (isSignedIn : Bool) (st : ChatState) : List Effect × ChatState :=
  if jsTrim st.input == "" || st.isLoading then ([], st)
  else if !isSignedIn then ([.toast "Please login or sign up to chat with documents"], st)
  else
    ([.request "/chat"],
     { st with messages := st.messages ++ [(true, st.input)], input := "", isLoading := true })

/-- A selected browser file: name, byte size, MIME type. -/
structure JsFile where
  name : String
  size : Nat
  mime : String
deriving DecidableEq

/-- The audio widget state. -/
structure AudioWidgetState where
  uploadedAudio : Option String
  isUploading : Bool
  isUploaded : Bool
  isProcessing : Bool
  isFailed : Bool
  progress : Nat
  errorMessage : String
deriving DecidableEq

/-- The change listener of the audio upload input, up to dispatching the
upload request (AudioUploadComponent lines 112-160): a file over 50 MB or
with a MIME type not starting with audio/ only alerts and returns, leaving
the widget state untouched; otherwise the widget enters the uploading state
and the upload request is issued. -/
def audioHandleFileChange (f : JsFile) (st : AudioWidgetState) :
    List Effect × AudioWidgetState :=
  if f.size > 50 * 1024 * 1024 then
    ([.alert "File too large. Please select a file smaller than 50MB."], st)
  else if !(f.mime.startsWith "audio/") then
    ([.alert "Please select an audio file."], st)
  else
    ([.request "/upload/audio"],
     { st with isUploading := true, progress := 0, isUploaded := false,
               isProcessing := false, isFailed := false, errorMessage := "",
               uploadedAudio := some f.name })

/-! ## Concrete worlds for witnesses and counterexamples -/

/-- A deterministic randomness environment for concrete evaluations: the
secure generator is available and always draws sixteen zero bytes. -/
def testEnv : CryptoEnv :=
  { throws := false, hasRandomUUID := true, hasGetRandomValues := true,
    randomBytes := fun _ _ => 0, mathRandomFrac := fun _ => "abcdefgh",
    mathRandomInt := fun _ => 7, fingerprint := "en-US|4|Linux x86_64|72|8" }

/-- The identifier testEnv generates on every call: sixteen zero bytes run
through the formatter of the source (whose dashes sit after bytes 4, 6, 8
and 10, exactly as the map-and-join in lines 53-59 places them). -/
def zeroUUID : String := "0000000000-0040-0080-0000-0000000000"

/-- A browser context with both tiers working and empty. -/
def baseWorld : World :=
  { windowDefined := true, memorySessionId := none, locAvail := .ok, sesAvail := .ok,
    locStore := Store.empty, sesStore := Store.empty, now := 1000, env := testEnv,
    genCount := 0, broadcasts := [], bcAvailable := true }

/-- A browser context in which every storage access throws. -/
def deadWorld : World :=
  { baseWorld with locAvail := .throwing, sesAvail := .throwing }

/-- A store holding different identifiers under the widget key and the
session-manager key. -/
def splitStore : Store :=
  ((Store.empty.put "sessionId" "A234567890").put PRIMARY "B234567890").put TIMESTAMP "1000"

/-- The world holding splitStore in a working localStorage. -/
def splitWorld : World := { baseWorld with locStore := splitStore }

/-- A world already holding the exact identifier the generator will produce
next: reachable, since the held identifier was produced by the same
generator. -/
def heldWorld : World := { baseWorld with memorySessionId := some zeroUUID }

/-- A store holding a valid fresh identifier under the session keys. -/
def dualStore : Store := (Store.empty.put PRIMARY "X234567890").put TIMESTAMP "1000"

/-- A world holding the same valid identifier in memory and in both tiers:
the state e.g. after the identifier was stored while sessionStorage was the
available tier and localStorage recovered later. -/
def dualWorld : World :=
  { baseWorld with
    memorySessionId := some "X234567890"
    locStore := dualStore
    sesStore := dualStore }

/-! ## Basic lemmas: stores, truthiness, generated identifiers -/

theorem Store.get_put_self (s : Store) (k v : String) : (s.put k v).get k = some v := by
  simp [Store.get, Store.put]

theorem Store.get_put_ne (s : Store) (k v q : String) (h : q ≠ k) :
    (s.put k v).get q = s.get q := by
  simp [Store.get, Store.put, h]

theorem Store.get_del_self (s : Store) (k : String) : (s.del k).get k = none := by
  simp [Store.get, Store.del]

theorem Store.get_del_ne (s : Store) (k q : String) (h : q ≠ k) :
    (s.del k).get q = s.get q := by
  simp [Store.get, Store.del, h]

theorem truthy_eq_true_iff (o : Option String) :
    truthy o = true ↔ ∃ s, o = some s ∧ s ≠ "" := by
  cases o with
  | none => simp [truthy]
  | some s => simp [truthy]

theorem truthy_some_getD (o : Option String) (h : truthy o = true) :
    o = some (o.getD "") := by
  cases o with
  | none => simp [truthy] at h
  | some s => rfl

theorem mk_ne_empty (l : List Char) (h : l ≠ []) : String.mk l ≠ "" := by
  intro he
  have h2 : ({ data := l } : String).data = ("" : String).data := congrArg String.data he
  simp at h2
  exact h h2

theorem uuidFromBytes_ne_empty (b : Nat → Nat) : uuidFromBytes b ≠ "" := by
  unfold uuidFromBytes jsSlice
  apply mk_ne_empty
  have hr : List.range 16 = [0,1,2,3,4,5,6,7,8,9,10,11,12,13,14,15] := by decide
  simp [hr, String.join, hexPair, String.data_append]

theorem sessFallbackId_ne_empty (env : CryptoEnv) (now i : Nat) :
    sessFallbackId env now i ≠ "" := by
  unfold sessFallbackId jsSlice
  apply mk_ne_empty
  simp [String.data_append]

/-- Every branch of generateUUID yields a non-empty string. -/
theorem generateUUID_ne_empty (env : CryptoEnv) (now i : Nat) :
    generateUUID env now i ≠ "" := by
  unfold generateUUID
  split
  · intro h
    have h2 : ("fallback-" ++ toString now ++ "-" ++ toString (env.mathRandomInt i)).length
        = ("" : String).length := congrArg String.length h
    simp [String.length_append] at h2
    have h9 : ("fallback-" : String).length = 9 := rfl
    omega
  · split
    · exact uuidFromBytes_ne_empty _
    · split
      · exact uuidFromBytes_ne_empty _
      · exact sessFallbackId_ne_empty _ _ _

/-! ## Frame lemmas: which parts of the world each helper leaves alone -/



theorem setTier_frame (w : World) (t : Tier) (s : Store) :
    (w.setTier t s).frame = w.frame := by
  cases t <;> rfl

theorem setTier_get_other (w : World) (t : Tier) (s : Store) (t2 : Tier) (h : t2 ≠ t) :
    (w.setTier t s).tierStore t2 = w.tierStore t2 := by
  cases t <;> cases t2 <;> simp_all [World.setTier, World.tierStore]

theorem setTier_get_self (w : World) (t : Tier) (s : Store) :
    (w.setTier t s).tierStore t = s := by
  cases t <;> rfl

theorem validateStorage_frame (w : World) (t : Tier) :
    (validateStorage w t).2.frame = w.frame := by
  unfold validateStorage
  cases h : w.tierAvail t <;> simp [setTier_frame]

theorem validateStorage_get (w : World) (t : Tier) (t2 : Tier) (k : String)
    (h : k ≠ TEST_KEY) :
    ((validateStorage w t).2.tierStore t2).get k = (w.tierStore t2).get k := by
  unfold validateStorage
  cases ha : w.tierAvail t
  · simp
  · simp
  · simp only []
    by_cases ht : t2 = t
    · subst ht
      simp [setTier_get_self, Store.get_del_ne _ _ _ h, Store.get_put_ne _ _ _ _ h]
    · simp [setTier_get_other _ _ _ _ ht]

theorem getAvailableStorage_fst (w : World) : (getAvailableStorage w).1 = availTier w := by
  unfold getAvailableStorage availTier
  cases hw : w.windowDefined
  · simp
  · cases hl : w.locAvail <;> cases hs : w.sesAvail <;>
      simp [validateStorage, World.tierAvail, hl, hs, Store.get_put_self]

theorem getAvailableStorage_frame (w : World) :
    (getAvailableStorage w).2.frame = w.frame := by
  unfold getAvailableStorage
  cases hw : w.windowDefined
  · simp
  · cases hl : w.locAvail <;> cases hs : w.sesAvail <;>
      simp [validateStorage, World.tierAvail, hl, hs, Store.get_put_self, setTier_frame]

theorem getAvailableStorage_get (w : World) (t2 : Tier) (k : String) (h : k ≠ TEST_KEY) :
    ((getAvailableStorage w).2.tierStore t2).get k = (w.tierStore t2).get k := by
  unfold getAvailableStorage
  cases hw : w.windowDefined
  · simp
  · cases hl : w.locAvail <;> cases hs : w.sesAvail <;>
      cases t2 <;>
      simp [validateStorage, World.tierAvail, World.tierStore, World.setTier, hl, hs,
        Store.get_put_self, Store.get_del_ne _ _ _ h, Store.get_put_ne _ _ _ _ h]

theorem frame_fields {w v : World} (h : w.frame = v.frame) :
    w.windowDefined = v.windowDefined ∧ w.memorySessionId = v.memorySessionId ∧
    w.locAvail = v.locAvail ∧ w.sesAvail = v.sesAvail ∧ w.now = v.now ∧
    w.env = v.env ∧ w.genCount = v.genCount ∧ w.broadcasts = v.broadcasts ∧
    w.bcAvailable = v.bcAvailable := by
  simp only [World.frame, Prod.mk.injEq] at h
  exact h

theorem sync_tierStore (sid : String) (w : World) (t : Tier) :
    (setupSessionSync sid w).tierStore t = w.tierStore t := by
  unfold setupSessionSync
  split <;> (cases t <;> rfl)

theorem sync_windowDefined (sid : String) (w : World) :
    (setupSessionSync sid w).windowDefined = w.windowDefined := by
  unfold setupSessionSync
  split <;> rfl

theorem sync_memory (sid : String) (w : World) :
    (setupSessionSync sid w).memorySessionId = w.memorySessionId := by
  unfold setupSessionSync
  split <;> rfl

/-- The save step of getSessionId writes the identifier and a fresh timestamp
into the selected tier and changes nothing else of the frame. -/
theorem saveNewSession_gets (w : World) (t : Tier) (sid : String) :
    ((saveNewSession w (some t) sid).tierStore t).get PRIMARY = some sid ∧
    ((saveNewSession w (some t) sid).tierStore t).get TIMESTAMP = some (toString w.now) ∧
    (saveNewSession w (some t) sid).frame = w.frame := by
  have hpt : PRIMARY ≠ TIMESTAMP := by decide
  unfold saveNewSession
  simp only []
  split
  · rename_i hcond
    obtain ⟨htl, _⟩ := hcond
    subst htl
    cases hs : w.sesAvail <;>
      simp [hs, setTier_frame, setTier_get_self, setTier_get_other, World.setTier,
        World.tierStore, World.frame, Store.get_put_self, Store.get_put_ne _ _ _ _ hpt]
  · simp [setTier_frame, setTier_get_self, Store.get_put_self,
      Store.get_put_ne _ _ _ _ hpt]



/-! ## Characterizations of getSessionId -/

theorem availTier_some_window {w : World} {t : Tier} (h : availTier w = some t) :
    w.windowDefined = true := by
  unfold availTier at h
  cases hwd : w.windowDefined
  · rw [hwd] at h
    simp at h
  · rfl

theorem PRIMARY_ne_TEST : PRIMARY ≠ TEST_KEY := by decide

theorem TIMESTAMP_ne_TEST : TIMESTAMP ≠ TEST_KEY := by decide

/-- The validation verdict only depends on the stored identifier, the stored
timestamp and the clock, so the round trip of getAvailableStorage does not
change it. -/
theorem storedSessionInvalid_ga (w : World) (t : Tier) :
    storedSessionInvalid (getAvailableStorage w).2 t = storedSessionInvalid w t := by
  obtain ⟨_, _, _, _, g5, _, _, _, _⟩ := frame_fields (getAvailableStorage_frame w)
  unfold storedSessionInvalid
  rw [getAvailableStorage_get w t PRIMARY PRIMARY_ne_TEST,
      getAvailableStorage_get w t TIMESTAMP TIMESTAMP_ne_TEST, g5]

theorem readStoredSession_frame (w : World) (t : Tier) :
    (readStoredSession w t).2.frame = w.frame := by
  unfold readStoredSession
  simp only []
  repeat' split
  all_goals first | rfl | simp [setTier_frame]

/-- With an invalid stored identifier, strategy 1 comes back empty-handed. -/
theorem readStoredSession_of_invalid (w : World) (t : Tier)
    (hs : storedSessionInvalid w t = true) :
    truthy (readStoredSession w t).1 = false := by
  unfold storedSessionInvalid at hs
  unfold readStoredSession
  simp only [] at hs ⊢
  by_cases hp : truthy ((w.tierStore t).get PRIMARY) = true
  · simp only [hp, if_true] at hs ⊢
    simp only [hs, if_true]
    rfl
  · simp only [Bool.not_eq_true] at hp
    simp only [hp, Bool.false_eq_true, if_false]

/-- With a valid stored identifier, strategy 1 returns it and leaves the
world untouched. -/
theorem readStoredSession_of_valid (w : World) (t : Tier)
    (hs : storedSessionInvalid w t = false) :
    readStoredSession w t = ((w.tierStore t).get PRIMARY, w) ∧
    truthy ((w.tierStore t).get PRIMARY) = true := by
  unfold storedSessionInvalid at hs
  unfold readStoredSession
  simp only [] at hs ⊢
  by_cases hp : truthy ((w.tierStore t).get PRIMARY) = true
  · simp only [hp, if_true] at hs ⊢
    simp only [hs, Bool.false_eq_true, if_false]
    refine ⟨?_, ?_⟩ <;> trivial
  · simp only [Bool.not_eq_true] at hp
    rw [hp] at hs
    simp at hs

theorem saveNewSession_frame (w : World) (storage : Option Tier) (sid : String) :
    (saveNewSession w storage sid).frame = w.frame := by
  rcases storage with _ | t
  · rfl
  · cases t <;> cases hs : w.sesAvail <;>
      simp [saveNewSession, World.setTier, World.tierStore, World.frame, hs]

theorem tierStore_memory_update (w : World) (m : Option String) (t : Tier) :
    ({ w with memorySessionId := m } : World).tierStore t = w.tierStore t := by
  cases t <;> rfl

/-- What strategy 2 guarantees: the returned identifier is the freshly
generated one, it is cached in memory, and it is persisted with a fresh
timestamp into the selected tier. -/
theorem finishNewSession_spec (w : World) (storage : Option Tier) :
    (finishNewSession w storage).1 = generateUUID w.env w.now w.genCount ∧
    (finishNewSession w storage).2.memorySessionId =
      some (finishNewSession w storage).1 ∧
    (finishNewSession w storage).2.windowDefined = w.windowDefined ∧
    (∀ t, storage = some t →
      ((finishNewSession w storage).2.tierStore t).get PRIMARY =
        some (finishNewSession w storage).1 ∧
      ((finishNewSession w storage).2.tierStore t).get TIMESTAMP =
        some (toString w.now)) := by
  unfold finishNewSession
  simp only []
  obtain ⟨s1, _, _, _, _, _, _, _, _⟩ :=
    frame_fields (saveNewSession_frame { w with genCount := w.genCount + 1 } storage
      (generateUUID w.env w.now w.genCount))
  refine ⟨trivial, trivial, ?_, ?_⟩
  · rw [sync_windowDefined, s1]
  · intro t hst
    subst hst
    obtain ⟨p1, p2, _⟩ := saveNewSession_gets { w with genCount := w.genCount + 1 } t
      (generateUUID w.env w.now w.genCount)
    rw [tierStore_memory_update, sync_tierStore]
    exact ⟨p1, p2⟩

/-- With no usable tier, getSessionId goes straight to generation. -/
theorem getSessionId_eq_no_tier (w : World) (hw : w.windowDefined = true)
    (hm : truthy w.memorySessionId = false) (ha : availTier w = none) :
    getSessionId w = finishNewSession (getAvailableStorage w).2 none := by
  unfold getSessionId
  rw [if_neg (by rw [hw]; decide), if_neg (by rw [hm]; decide)]
  simp only []
  rw [getAvailableStorage_fst, ha]
  simp only [truthy, Bool.not_false, if_true]

/-- With a tier whose stored identifier fails validation, getSessionId
discards it and generates. -/
theorem getSessionId_eq_gen_tier (w : World) (t : Tier) (hw : w.windowDefined = true)
    (hm : truthy w.memorySessionId = false) (ha : availTier w = some t)
    (hs : storedSessionInvalid w t = true) :
    getSessionId w =
      finishNewSession (readStoredSession (getAvailableStorage w).2 t).2 (some t) := by
  have htr : truthy (readStoredSession (getAvailableStorage w).2 t).1 = false :=
    readStoredSession_of_invalid _ t (by rw [storedSessionInvalid_ga]; exact hs)
  unfold getSessionId
  rw [if_neg (by rw [hw]; decide), if_neg (by rw [hm]; decide)]
  simp only []
  rw [getAvailableStorage_fst, ha]
  simp only []
  rw [if_pos (by rw [htr]; decide)]

/-- With a tier whose stored identifier passes validation, getSessionId
returns the stored identifier and only updates the memory cache. -/
theorem getSessionId_eq_keep (w : World) (t : Tier) (hw : w.windowDefined = true)
    (hm : truthy w.memorySessionId = false) (ha : availTier w = some t)
    (hs : storedSessionInvalid w t = false) :
    getSessionId w =
      (((w.tierStore t).get PRIMARY).getD "",
       { (getAvailableStorage w).2 with memorySessionId := (w.tierStore t).get PRIMARY }) := by
  have hsg : storedSessionInvalid (getAvailableStorage w).2 t = false := by
    rw [storedSessionInvalid_ga]; exact hs
  obtain ⟨hre, htr⟩ := readStoredSession_of_valid (getAvailableStorage w).2 t hsg
  have hget : ((getAvailableStorage w).2.tierStore t).get PRIMARY =
      (w.tierStore t).get PRIMARY := getAvailableStorage_get w t PRIMARY PRIMARY_ne_TEST
  unfold getSessionId
  rw [if_neg (by rw [hw]; decide), if_neg (by rw [hm]; decide)]
  simp only []
  rw [getAvailableStorage_fst, ha]
  simp only []
  rw [hre]
  simp only []
  rw [hget] at htr
  rw [if_neg (by rw [hget, htr]; decide)]
  rw [hget]

/-- With a truthy memory cache, getSessionId is a pure read. -/
theorem getSessionId_eq_memory (w : World) (hw : w.windowDefined = true)
    (hm : truthy w.memorySessionId = true) :
    getSessionId w = (w.memorySessionId.getD "", w) := by
  unfold getSessionId
  rw [if_neg (by rw [hw]; decide), if_pos hm]

theorem storedInvalid_false_truthy {w : World} {t : Tier}
    (hs : storedSessionInvalid w t = false) :
    truthy ((w.tierStore t).get PRIMARY) = true := by
  by_contra hc
  simp only [Bool.not_eq_true] at hc
  unfold storedSessionInvalid at hs
  simp [hc] at hs

/-- After any getSessionId call in a browser context, the returned identifier
is non-empty and sits in the memory cache of the resulting world, which is
still a browser context. -/
theorem getSessionId_caches (w : World) (hw : w.windowDefined = true) :
    (getSessionId w).2.windowDefined = true ∧
    (getSessionId w).2.memorySessionId = some (getSessionId w).1 ∧
    (getSessionId w).1 ≠ "" := by
  obtain ⟨g1, _, _, _, _, _, _, _, _⟩ := frame_fields (getAvailableStorage_frame w)
  by_cases hm : truthy w.memorySessionId = true
  · rw [getSessionId_eq_memory w hw hm]
    obtain ⟨s, hse, hsne⟩ := (truthy_eq_true_iff _).1 hm
    refine ⟨hw, ?_, ?_⟩
    · simpa [hse] using (truthy_some_getD _ hm).symm
    · simpa [hse] using hsne
  · simp only [Bool.not_eq_true] at hm
    rcases ha : availTier w with _ | t
    · rw [getSessionId_eq_no_tier w hw hm ha]
      obtain ⟨f1, f2, f3, _⟩ := finishNewSession_spec (getAvailableStorage w).2 none
      exact ⟨by rw [f3, g1, hw], f2, by rw [f1]; exact generateUUID_ne_empty _ _ _⟩
    · by_cases hs : storedSessionInvalid w t = true
      · rw [getSessionId_eq_gen_tier w t hw hm ha hs]
        obtain ⟨r1, _, _, _, _, _, _, _, _⟩ :=
          frame_fields (readStoredSession_frame (getAvailableStorage w).2 t)
        obtain ⟨f1, f2, f3, _⟩ :=
          finishNewSession_spec (readStoredSession (getAvailableStorage w).2 t).2 (some t)
        exact ⟨by rw [f3, r1, g1, hw], f2, by rw [f1]; exact generateUUID_ne_empty _ _ _⟩
      · simp only [Bool.not_eq_true] at hs
        rw [getSessionId_eq_keep w t hw hm ha hs]
        have htr := storedInvalid_false_truthy hs
        obtain ⟨s, hse, hsne⟩ := (truthy_eq_true_iff _).1 htr
        refine ⟨by simpa using (by rw [g1]; exact hw), ?_, ?_⟩
        · simpa [hse] using (truthy_some_getD _ htr).symm
        · simpa [hse] using hsne

theorem availTier_of_fields {w v : World} (h1 : v.windowDefined = w.windowDefined)
    (h2 : v.locAvail = w.locAvail) (h3 : v.sesAvail = w.sesAvail) :
    availTier v = availTier w := by
  unfold availTier
  rw [h1, h2, h3]

theorem BACKUP_ne_TEST : BACKUP ≠ TEST_KEY := by decide

theorem storedSessionInvalid_of_none {w : World} {t : Tier}
    (h : (w.tierStore t).get PRIMARY = none) : storedSessionInvalid w t = true := by
  unfold storedSessionInvalid
  simp [h, truthy]

/-- refreshSession always returns the freshly generated identifier, caches
it, and persists it with a fresh timestamp to the available tier. -/
theorem refreshSession_spec (w : World) (hw : w.windowDefined = true) :
    (refreshSession w).1 = generateUUID w.env w.now w.genCount ∧
    (refreshSession w).2.memorySessionId = some (refreshSession w).1 ∧
    (∀ t, availTier w = some t →
      ((refreshSession w).2.tierStore t).get PRIMARY = some (refreshSession w).1 ∧
      ((refreshSession w).2.tierStore t).get TIMESTAMP = some (toString w.now)) := by
  obtain ⟨g1, g2, g3, g4, g5, g6, g7, g8, g9⟩ := frame_fields (getAvailableStorage_frame w)
  have hpt : PRIMARY ≠ TIMESTAMP := by decide
  unfold refreshSession
  rw [if_neg (by rw [hw]; decide)]
  simp only []
  rw [getAvailableStorage_fst]
  rcases ha : availTier w with _ | t
  · simp only []
    refine ⟨by rw [g5, g6, g7], ?_, ?_⟩
    · rw [sync_memory]
    · intro t h
      simp at h
  · simp only []
    refine ⟨by rw [g5, g6, g7], ?_, ?_⟩
    · rw [sync_memory]
      cases t <;> rfl
    · intro t2 h2
      injection h2 with h2
      subst h2
      rw [sync_tierStore]
      constructor
      · rw [setTier_get_self, Store.get_put_ne _ _ _ _ hpt, Store.get_put_self]
      · rw [setTier_get_self, Store.get_put_self, g5]

/-- clearSession drops the memory cache and removes all three session keys
from the available tier, leaving the clock, the randomness state and the
tier availability untouched. -/
theorem clearSession_spec (w : World) (hw : w.windowDefined = true) :
    (clearSession w).memorySessionId = none ∧
    (clearSession w).windowDefined = true ∧
    (clearSession w).env = w.env ∧
    (clearSession w).now = w.now ∧
    (clearSession w).genCount = w.genCount ∧
    (clearSession w).locAvail = w.locAvail ∧
    (clearSession w).sesAvail = w.sesAvail ∧
    (∀ t, availTier w = some t →
      ((clearSession w).tierStore t).get PRIMARY = none ∧
      ((clearSession w).tierStore t).get BACKUP = none ∧
      ((clearSession w).tierStore t).get TIMESTAMP = none) := by
  have hwm : availTier { w with memorySessionId := none } = availTier w :=
    availTier_of_fields rfl rfl rfl
  obtain ⟨g1, g2, g3, g4, g5, g6, g7, g8, g9⟩ :=
    frame_fields (getAvailableStorage_frame { w with memorySessionId := none })
  have hpb : PRIMARY ≠ BACKUP := by decide
  have hpt : PRIMARY ≠ TIMESTAMP := by decide
  have hbt : BACKUP ≠ TIMESTAMP := by decide
  unfold clearSession
  rw [if_neg (by rw [hw]; decide)]
  simp only []
  rw [getAvailableStorage_fst, hwm]
  rcases ha : availTier w with _ | t
  · simp only []
    exact ⟨g2, by rw [g1]; exact hw, g6, g5, g7, g3, g4, by intro t h; simp at h⟩
  · simp only []
    obtain ⟨s1, s2, s3, s4, s5, s6, s7, s8, s9⟩ :=
      frame_fields (setTier_frame (getAvailableStorage { w with memorySessionId := none }).2 t
        (((((getAvailableStorage { w with memorySessionId := none }).2.tierStore t).del
          PRIMARY).del BACKUP).del TIMESTAMP))
    refine ⟨by rw [s2, g2], by rw [s1, g1]; exact hw, by rw [s6, g6],
      by rw [s5, g5], by rw [s7, g7], by rw [s3, g3], by rw [s4, g4], ?_⟩
    intro t2 h2
    injection h2 with h2
    subst h2
    rw [setTier_get_self]
    refine ⟨?_, ?_, ?_⟩
    · rw [Store.get_del_ne _ _ _ hpt, Store.get_del_ne _ _ _ hpb, Store.get_del_self]
    · rw [Store.get_del_ne _ _ _ hbt, Store.get_del_self]
    · rw [Store.get_del_self]

/-! ## Characterizations of the polling loops -/

theorem firstHit_ge (p : PollTick → Bool) (s : Nat → PollTick) :
    ∀ fuel i j, firstHit p s i fuel = some j → i ≤ j := by
  intro fuel
  induction fuel with
  | zero => intro i j h; simp [firstHit] at h
  | succ n ih =>
    intro i j h
    unfold firstHit at h
    split at h
    · injection h with h
      omega
    · have := ih (i + 1) j h
      omega

/-- The audio loop runs until the first terminal tick and times out when none
occurs within the budget; the number of requests issued is exactly the number
of ticks up to and including the stopping one. -/
theorem audioPollAux_eq (s : Nat → PollTick) :
    ∀ fuel i, audioPollAux s i fuel =
      match firstHit isTerminalTick s i fuel with
      | none => (.rejectedTimeout, fuel)
      | some j => (tickOutcome (s j), j + 1 - i) := by
  intro fuel
  induction fuel with
  | zero => intro i; rfl
  | succ n ih =>
    intro i
    unfold audioPollAux firstHit
    cases ht : s i with
    | ready => simp [isTerminalTick, tickOutcome, ht]
    | failed => simp [isTerminalTick, tickOutcome, ht]
    | err =>
        simp only [isTerminalTick, Bool.false_eq_true, if_false, ih (i + 1)]
        cases hf : firstHit isTerminalTick s (i + 1) n with
        | none => simp
        | some j =>
            have hj := firstHit_ge isTerminalTick s n (i + 1) j hf
            have h3 : j + 1 - (i + 1) + 1 = j + 1 - i := by omega
            simp only []
            rw [h3]
    | notFound =>
        simp only [isTerminalTick, Bool.false_eq_true, if_false, ih (i + 1)]
        cases hf : firstHit isTerminalTick s (i + 1) n with
        | none => simp
        | some j =>
            have hj := firstHit_ge isTerminalTick s n (i + 1) j hf
            have h3 : j + 1 - (i + 1) + 1 = j + 1 - i := by omega
            simp only []
            rw [h3]
    | processing =>
        simp only [isTerminalTick, Bool.false_eq_true, if_false, ih (i + 1)]
        cases hf : firstHit isTerminalTick s (i + 1) n with
        | none => simp
        | some j =>
            have hj := firstHit_ge isTerminalTick s n (i + 1) j hf
            have h3 : j + 1 - (i + 1) + 1 = j + 1 - i := by omega
            simp only []
            rw [h3]

/-- The PDF loop stops at the first terminal tick or poll error and timesout
when none occurs within the budget. -/
theorem pdfPollAux_eq (s : Nat → PollTick) :
    ∀ fuel i, pdfPollAux s i fuel =
      match firstHit isPdfStopTick s i fuel with
      | none => (.rejectedTimeout, fuel)
      | some j => (tickOutcome (s j), j + 1 - i) := by
  intro fuel
  induction fuel with
  | zero => intro i; rfl
  | succ n ih =>
    intro i
    unfold pdfPollAux firstHit
    cases ht : s i with
    | ready => simp [isPdfStopTick, tickOutcome, ht]
    | failed => simp [isPdfStopTick, tickOutcome, ht]
    | err => simp [isPdfStopTick, tickOutcome, ht]
    | notFound =>
        simp only [isPdfStopTick, Bool.false_eq_true, if_false, ih (i + 1)]
        cases hf : firstHit isPdfStopTick s (i + 1) n with
        | none => simp
        | some j =>
            have hj := firstHit_ge isPdfStopTick s n (i + 1) j hf
            have h3 : j + 1 - (i + 1) + 1 = j + 1 - i := by omega
            simp only []
            rw [h3]
    | processing =>
        simp only [isPdfStopTick, Bool.false_eq_true, if_false, ih (i + 1)]
        cases hf : firstHit isPdfStopTick s (i + 1) n with
        | none => simp
        | some j =>
            have hj := firstHit_ge isPdfStopTick s n (i + 1) j hf
            have h3 : j + 1 - (i + 1) + 1 = j + 1 - i := by omega
            simp only []
            rw [h3]



/-! ## Claims -/

/-- C1: within one page lifetime, calling getSessionId twice returns the same
identifier both times; the second call returns the memory-cached string and
changes nothing, in particular it performs no further generation. -/
theorem C1_getSessionId_idempotent (w : World) (hw : w.windowDefined = true) :
    getSessionId (getSessionId w).2 = getSessionId w := by
  obtain ⟨h1, h2, h3⟩ := getSessionId_caches w hw
  rw [getSessionId_eq_memory _ h1 (by rw [h2]; simp [truthy]; exact h3), h2]
  simp

/-- C1 witness: the idempotence at a concrete fresh browser context. -/
theorem C1_witness :
    baseWorld.windowDefined = true ∧
    getSessionId (getSessionId baseWorld).2 = getSessionId baseWorld :=
  ⟨rfl, C1_getSessionId_idempotent baseWorld rfl⟩

/-- Outside a browser context, getSessionId returns the server default. -/
theorem getSessionId_eq_server (w : World) (hw : w.windowDefined = false) :
    getSessionId w = ("server-default", w) := by
  unfold getSessionId
  rw [if_pos (by rw [hw]; decide)]

/-- C3: getSessionId is total in the model and always returns a non-empty
string, whatever the tier availability; and when no tier is usable the value
is cached in memory, so a repeated call returns the same identifier and
leaves the world unchanged. -/
theorem C3_never_fails (w : World) :
    (getSessionId w).1 ≠ "" ∧
    (w.windowDefined = true → availTier w = none →
      (getSessionId w).2.memorySessionId = some (getSessionId w).1 ∧
      getSessionId (getSessionId w).2 = getSessionId w) := by
  constructor
  · cases hw : w.windowDefined
    · rw [getSessionId_eq_server w hw]
      simp
    · exact (getSessionId_caches w hw).2.2
  · intro hw _
    obtain ⟨h1, h2, h3⟩ := getSessionId_caches w hw
    refine ⟨h2, ?_⟩
    rw [getSessionId_eq_memory _ h1 (by rw [h2]; simp [truthy]; exact h3), h2]
    simp

/-- C3 witness: at a context whose storage tiers all throw, the identifier is
non-empty, memory-cached and stable across calls. -/
theorem C3_witness :
    (getSessionId deadWorld).1 ≠ "" ∧
    deadWorld.windowDefined = true ∧ availTier deadWorld = none ∧
    (getSessionId deadWorld).2.memorySessionId = some (getSessionId deadWorld).1 ∧
    getSessionId (getSessionId deadWorld).2 = getSessionId deadWorld :=
  ⟨(C3_never_fails deadWorld).1, rfl, rfl,
   ((C3_never_fails deadWorld).2 rfl rfl).1, ((C3_never_fails deadWorld).2 rfl rfl).2⟩

/-- C2: with no memory cache and an available tier, getSessionId discards an
invalid stored identifier (falsy or empty, shorter than 10 characters, or
expired against the 30-day window, a missing timestamp counting as expired)
and writes and returns a freshly generated identifier with a fresh
timestamp; a valid stored identifier is returned with the tier unchanged on
the session keys. -/
theorem C2_storage_validation (w : World) (t : Tier)
    (hm : truthy w.memorySessionId = false) (ha : availTier w = some t) :
    (storedSessionInvalid w t = true →
      (getSessionId w).1 = generateUUID w.env w.now w.genCount ∧
      ((getSessionId w).2.tierStore t).get PRIMARY = some (getSessionId w).1 ∧
      ((getSessionId w).2.tierStore t).get TIMESTAMP = some (toString w.now)) ∧
    (storedSessionInvalid w t = false →
      some (getSessionId w).1 = (w.tierStore t).get PRIMARY ∧
      ((getSessionId w).2.tierStore t).get PRIMARY = (w.tierStore t).get PRIMARY ∧
      ((getSessionId w).2.tierStore t).get TIMESTAMP = (w.tierStore t).get TIMESTAMP) := by
  have hw := availTier_some_window ha
  obtain ⟨g1, g2, g3, g4, g5, g6, g7, g8, g9⟩ := frame_fields (getAvailableStorage_frame w)
  constructor
  · intro hs
    rw [getSessionId_eq_gen_tier w t hw hm ha hs]
    obtain ⟨r1, r2, r3, r4, r5, r6, r7, r8, r9⟩ :=
      frame_fields (readStoredSession_frame (getAvailableStorage w).2 t)
    obtain ⟨f1, f2, f3, f4⟩ :=
      finishNewSession_spec (readStoredSession (getAvailableStorage w).2 t).2 (some t)
    obtain ⟨p1, p2⟩ := f4 t rfl
    rw [r5, g5] at p2
    refine ⟨?_, p1, p2⟩
    rw [f1, r5, g5, r6, g6, r7, g7]
  · intro hs
    rw [getSessionId_eq_keep w t hw hm ha hs]
    have htr := storedInvalid_false_truthy hs
    refine ⟨(truthy_some_getD _ htr).symm, ?_, ?_⟩
    · rw [tierStore_memory_update]
      exact getAvailableStorage_get w t PRIMARY PRIMARY_ne_TEST
    · rw [tierStore_memory_update]
      exact getAvailableStorage_get w t TIMESTAMP TIMESTAMP_ne_TEST

/-- C2 witness: in a fresh context the stored identifier is absent, hence
invalid, and a generated identifier is written and returned. -/
theorem C2_witness :
    truthy baseWorld.memorySessionId = false ∧
    availTier baseWorld = some Tier.loc ∧
    storedSessionInvalid baseWorld Tier.loc = true ∧
    ((getSessionId baseWorld).1 =
      generateUUID baseWorld.env baseWorld.now baseWorld.genCount ∧
     ((getSessionId baseWorld).2.tierStore Tier.loc).get PRIMARY =
      some (getSessionId baseWorld).1 ∧
     ((getSessionId baseWorld).2.tierStore Tier.loc).get TIMESTAMP =
      some (toString baseWorld.now)) :=
  ⟨rfl, rfl, by decide,
   (C2_storage_validation baseWorld Tier.loc rfl rfl).1 (by decide)⟩

/-- C4 counterexample: the PDF upload widget reads the key sessionId while
the session manager (used by the audio widget) reads pdfrag_session_id, so in
a context where those keys hold different valid identifiers the components
send different correlation keys — there is not one active identifier that
every component uses. -/
theorem C4_counterexample :
    (fileUploadGetSessionId splitWorld.locStore "ignored-uuid").1 ≠
      (getSessionId splitWorld).1 := by
  have h1 : (fileUploadGetSessionId splitWorld.locStore "ignored-uuid").1 =
      "A234567890" := rfl
  have h2 : (getSessionId splitWorld).1 = "B234567890" := rfl
  rw [h1, h2]
  decide

/-- C4 amended: the PDF upload widget and the chat widget do agree with each
other, because both read the key sessionId of localStorage: whenever that key
holds a non-empty value, both return exactly that value.  The audio widget
uses the session manager identifier under pdfrag_session_id instead, which
can differ (see the counterexample). -/
theorem C4_amended_pdf_chat_agree (s : Store) (u v : String)
    (h : s.get "sessionId" = some v) (hv : v ≠ "") :
    (fileUploadGetSessionId s u).1 = v ∧ chatSessionId s = v := by
  unfold fileUploadGetSessionId chatSessionId
  rw [h]
  simp [truthy, hv]

/-- C4 witness: the agreement of the PDF and chat widgets at a concrete
store. -/
theorem C4_witness :
    (Store.empty.put "sessionId" "A234567890").get "sessionId" = some "A234567890" ∧
    "A234567890" ≠ "" ∧
    (fileUploadGetSessionId (Store.empty.put "sessionId" "A234567890") "u").1 =
      "A234567890" ∧
    chatSessionId (Store.empty.put "sessionId" "A234567890") = "A234567890" :=
  ⟨by decide, by decide,
   (C4_amended_pdf_chat_agree _ "u" "A234567890" (by decide) (by decide)).1,
   (C4_amended_pdf_chat_agree _ "u" "A234567890" (by decide) (by decide)).2⟩



/-- C5 counterexample: refreshSession performs no inequality check against
the previously held identifier, so when the generator draws the same bytes
again the refreshed identifier equals the one previously held. -/
theorem C5_counterexample :
    heldWorld.memorySessionId = some zeroUUID ∧
    (refreshSession heldWorld).1 = zeroUUID :=
  ⟨rfl, rfl⟩

/-- C5 amended: refreshSession unconditionally generates a fresh identifier,
caches it, persists it with a fresh timestamp to the available tier, and the
result differs from any previously held identifier exactly when the freshly
generated value differs from it — the code never compares the two. -/
theorem C5_amended_refresh (w : World) (hw : w.windowDefined = true) :
    (refreshSession w).1 = generateUUID w.env w.now w.genCount ∧
    (refreshSession w).2.memorySessionId = some (refreshSession w).1 ∧
    (∀ t, availTier w = some t →
      ((refreshSession w).2.tierStore t).get PRIMARY = some (refreshSession w).1 ∧
      ((refreshSession w).2.tierStore t).get TIMESTAMP = some (toString w.now)) ∧
    (∀ old, old ≠ generateUUID w.env w.now w.genCount → (refreshSession w).1 ≠ old) := by
  obtain ⟨h1, h2, h3⟩ := refreshSession_spec w hw
  refine ⟨h1, h2, h3, fun old hne hc => hne ?_⟩
  rw [← hc, h1]

/-- C5 witness: the amended refresh behavior at a concrete fresh context. -/
theorem C5_witness :
    baseWorld.windowDefined = true ∧
    (refreshSession baseWorld).1 =
      generateUUID baseWorld.env baseWorld.now baseWorld.genCount ∧
    (refreshSession baseWorld).2.memorySessionId = some (refreshSession baseWorld).1 ∧
    (((refreshSession baseWorld).2.tierStore Tier.loc).get PRIMARY =
      some (refreshSession baseWorld).1 ∧
     ((refreshSession baseWorld).2.tierStore Tier.loc).get TIMESTAMP =
      some (toString baseWorld.now)) :=
  ⟨rfl, (C5_amended_refresh baseWorld rfl).1, (C5_amended_refresh baseWorld rfl).2.1,
   (C5_amended_refresh baseWorld rfl).2.2.1 Tier.loc rfl⟩



/-- C6 counterexample: clearSession removes the identifier only from the one
tier that is available at clearing time, not from all known tiers: here the
sessionStorage copy survives the clear, and when localStorage starts throwing
before the next call (the very fluctuation validateStorage exists for), the
following getSessionId reads the old identifier back instead of generating a
new one. -/
theorem C6_counterexample :
    dualWorld.memorySessionId = some "X234567890" ∧
    ((clearSession dualWorld).sesStore).get PRIMARY = some "X234567890" ∧
    (getSessionId { clearSession dualWorld with
        locAvail := TierAvail.throwing }).1 = "X234567890" :=
  ⟨rfl, rfl, rfl⟩

/-- C6 amended: clearSession drops the memory cache and removes the session
keys from the currently available tier; while the tier availability is
unchanged, the next getSessionId finds nothing stored and returns a freshly
generated identifier, which differs from the pre-clear identifier whenever
the generator yields a different value. -/
theorem C6_amended_clear (w : World) (hw : w.windowDefined = true) :
    (clearSession w).memorySessionId = none ∧
    (∀ t, availTier w = some t →
      ((clearSession w).tierStore t).get PRIMARY = none ∧
      ((clearSession w).tierStore t).get BACKUP = none ∧
      ((clearSession w).tierStore t).get TIMESTAMP = none) ∧
    (getSessionId (clearSession w)).1 = generateUUID w.env w.now w.genCount ∧
    (∀ old, old ≠ generateUUID w.env w.now w.genCount →
      (getSessionId (clearSession w)).1 ≠ old) := by
  obtain ⟨c1, c2, c3, c4, c5, c6, c7, c8⟩ := clearSession_spec w hw
  have hm1 : truthy (clearSession w).memorySessionId = false := by rw [c1]; rfl
  have hat : availTier (clearSession w) = availTier w :=
    availTier_of_fields (by rw [c2, hw]) c6 c7
  have hmain : (getSessionId (clearSession w)).1 = generateUUID w.env w.now w.genCount := by
    obtain ⟨g1, g2, g3, g4, g5, g6, g7, g8, g9⟩ :=
      frame_fields (getAvailableStorage_frame (clearSession w))
    rcases ha : availTier w with _ | t
    · rw [getSessionId_eq_no_tier (clearSession w) c2 hm1 (by rw [hat, ha])]
      obtain ⟨f1, _, _, _⟩ :=
        finishNewSession_spec (getAvailableStorage (clearSession w)).2 none
      rw [f1, g5, c4, g6, c3, g7, c5]
    · obtain ⟨p1, _, _⟩ := c8 t ha
      have hsi : storedSessionInvalid (clearSession w) t = true :=
        storedSessionInvalid_of_none p1
      rw [getSessionId_eq_gen_tier (clearSession w) t c2 hm1 (by rw [hat, ha]) hsi]
      obtain ⟨f1, _, _, _⟩ := finishNewSession_spec
        (readStoredSession (getAvailableStorage (clearSession w)).2 t).2 (some t)
      obtain ⟨r1, r2, r3, r4, r5, r6, r7, _, _⟩ :=
        frame_fields (readStoredSession_frame (getAvailableStorage (clearSession w)).2 t)
      rw [f1, r5, g5, c4, r6, g6, c3, r7, g7, c5]
  refine ⟨c1, c8, hmain, fun old hne hc => hne ?_⟩
  rw [← hc, hmain]

/-- C6 witness: the amended clear behavior at a concrete context holding a
valid identifier. -/
theorem C6_witness :
    dualWorld.windowDefined = true ∧
    (clearSession dualWorld).memorySessionId = none ∧
    (((clearSession dualWorld).tierStore Tier.loc).get PRIMARY = none ∧
     ((clearSession dualWorld).tierStore Tier.loc).get BACKUP = none ∧
     ((clearSession dualWorld).tierStore Tier.loc).get TIMESTAMP = none) ∧
    (getSessionId (clearSession dualWorld)).1 =
      generateUUID dualWorld.env dualWorld.now dualWorld.genCount :=
  ⟨rfl, (C6_amended_clear dualWorld rfl).1,
   (C6_amended_clear dualWorld rfl).2.1 Tier.loc rfl,
   (C6_amended_clear dualWorld rfl).2.2.1⟩

/-- C7: a tab receiving a SESSION_UPDATE message carrying a non-empty
identifier x writes x with a fresh timestamp into its available tier, adopts
x into its memory cache overriding whatever it held, and every subsequent
getSessionId call returns x without touching the world. -/
theorem C7_broadcast_adoption (w : World) (x : String) (hw : w.windowDefined = true)
    (hx : x ≠ "") :
    (onSessionUpdate x w).memorySessionId = some x ∧
    (∀ t, availTier w = some t →
      ((onSessionUpdate x w).tierStore t).get PRIMARY = some x ∧
      ((onSessionUpdate x w).tierStore t).get TIMESTAMP = some (toString w.now)) ∧
    getSessionId (onSessionUpdate x w) = (x, onSessionUpdate x w) := by
  obtain ⟨g1, g2, g3, g4, g5, g6, g7, g8, g9⟩ := frame_fields (getAvailableStorage_frame w)
  have hpt : PRIMARY ≠ TIMESTAMP := by decide
  have hmem : (onSessionUpdate x w).memorySessionId = some x := rfl
  have hwd : (onSessionUpdate x w).windowDefined = true := by
    unfold onSessionUpdate
    simp only []
    rcases h : (getAvailableStorage w).1 with _ | t
    · exact show (getAvailableStorage w).2.windowDefined = true by rw [g1]; exact hw
    · cases t <;>
        exact show (getAvailableStorage w).2.windowDefined = true by rw [g1]; exact hw
  have hst : ∀ t2, availTier w = some t2 →
      ((onSessionUpdate x w).tierStore t2).get PRIMARY = some x ∧
      ((onSessionUpdate x w).tierStore t2).get TIMESTAMP = some (toString w.now) := by
    intro t2 ht
    unfold onSessionUpdate
    simp only []
    rw [getAvailableStorage_fst, ht]
    simp only []
    cases t2 <;>
      refine ⟨?_, ?_⟩ <;>
      simp [World.tierStore, World.setTier, Store.get_put_self,
        Store.get_put_ne _ _ _ _ hpt, g5]
  refine ⟨hmem, hst, ?_⟩
  rw [getSessionId_eq_memory (onSessionUpdate x w) hwd
    (by rw [hmem]; simp [truthy]; exact hx), hmem]
  simp

/-- C7 witness: adoption of a concrete broadcast identifier in a fresh
context. -/
theorem C7_witness :
    baseWorld.windowDefined = true ∧ "X234567890" ≠ "" ∧
    (onSessionUpdate "X234567890" baseWorld).memorySessionId = some "X234567890" ∧
    (((onSessionUpdate "X234567890" baseWorld).tierStore Tier.loc).get PRIMARY =
      some "X234567890" ∧
     ((onSessionUpdate "X234567890" baseWorld).tierStore Tier.loc).get TIMESTAMP =
      some (toString baseWorld.now)) ∧
    getSessionId (onSessionUpdate "X234567890" baseWorld) =
      ("X234567890", onSessionUpdate "X234567890" baseWorld) :=
  ⟨rfl, by decide,
   (C7_broadcast_adoption baseWorld "X234567890" rfl (by decide)).1,
   (C7_broadcast_adoption baseWorld "X234567890" rfl (by decide)).2.1 Tier.loc rfl,
   (C7_broadcast_adoption baseWorld "X234567890" rfl (by decide)).2.2⟩

/-- C8 counterexample: the PDF polling loop is also cancelled by a mere poll
error (a thrown fetch or non-ok response), not only by a terminal status or
the timeout ceiling: on a stream whose first tick errors, the loop stops
after one request with 149 ticks of budget left, without any terminal status
having been observed. -/
theorem C8_counterexample :
    pdfPoll (fun _ => PollTick.err) = (PollOutcome.rejectedError, 1) ∧
    isTerminalTick PollTick.err = false ∧ 1 < pdfMaxTicks := by
  refine ⟨?_, rfl, by decide⟩
  decide

/-- C8 amended: the audio loop is cancelled exactly at the first terminal
tick (ready or failed) or, when none occurs, by the 10-minute timeout, with
poll errors merely skipped; the PDF loop is cancelled at the first terminal
tick or poll error or by the 5-minute timeout; the request count equals the
number of ticks up to cancellation, so no request follows it; the budgets
derive from the 5 and 10 minute ceilings over the 2 and 3 second periods;
and a timeout puts each widget in the same flag state as an explicit
processing failure. -/
theorem C8_amended_poll_cancellation (s : Nat → PollTick) :
    (audioPoll s = match firstHit isTerminalTick s 0 audioMaxTicks with
      | none => (PollOutcome.rejectedTimeout, audioMaxTicks)
      | some j => (tickOutcome (s j), j + 1)) ∧
    (pdfPoll s = match firstHit isPdfStopTick s 0 pdfMaxTicks with
      | none => (PollOutcome.rejectedTimeout, pdfMaxTicks)
      | some j => (tickOutcome (s j), j + 1)) ∧
    pdfMaxTicks * 2000 = 5 * 60 * 1000 ∧
    audioMaxTicks * 3000 = 10 * 60 * 1000 ∧
    pdfFlagsAfter PollOutcome.rejectedTimeout = pdfFlagsAfter PollOutcome.rejectedFailed ∧
    audioFlagsAfter PollOutcome.rejectedTimeout = audioFlagsAfter PollOutcome.rejectedFailed := by
  refine ⟨?_, ?_, by decide, by decide, rfl, rfl⟩
  · rw [audioPoll, audioPollAux_eq]
    cases hf : firstHit isTerminalTick s 0 audioMaxTicks <;> simp
  · rw [pdfPoll, pdfPollAux_eq]
    cases hf : firstHit isPdfStopTick s 0 pdfMaxTicks <;> simp

/-- C9: with the signed-in state absent, each of the three handlers emits
exactly one auth notification and nothing else: no network request is
issued, no state is changed, nothing is queued for retry. -/
theorem C9_auth_gate (st : ChatState) (hin : jsTrim st.input ≠ "")
    (hload : st.isLoading = false) :
    pdfHandleUploadClick false =
      [Effect.toast "Please login or sign up to upload PDF files"] ∧
    audioHandleUploadClick false =
      [Effect.toast "Please login or sign up to upload audio files"] ∧
    chatHandleSend false st =
      ([Effect.toast "Please login or sign up to chat with documents"], st) ∧
    (∀ u, Effect.request u ∉ pdfHandleUploadClick false) ∧
    (∀ u, Effect.request u ∉ audioHandleUploadClick false) ∧
    (∀ u, Effect.request u ∉ (chatHandleSend false st).1) := by
  have hsend : chatHandleSend false st =
      ([Effect.toast "Please login or sign up to chat with documents"], st) := by
    unfold chatHandleSend
    rw [if_neg (by simp [hload, hin])]
    rfl
  refine ⟨rfl, rfl, hsend, ?_, ?_, ?_⟩
  · intro u hu
    simp [pdfHandleUploadClick] at hu
  · intro u hu
    simp [audioHandleUploadClick] at hu
  · rw [hsend]
    intro u hu
    simp at hu

/-- C9 witness: the gate at a concrete pending message. -/
theorem C9_witness :
    jsTrim (ChatState.mk [] "hello" false).input ≠ "" ∧
    (ChatState.mk [] "hello" false).isLoading = false ∧
    chatHandleSend false (ChatState.mk [] "hello" false) =
      ([Effect.toast "Please login or sign up to chat with documents"],
       ChatState.mk [] "hello" false) ∧
    pdfHandleUploadClick false =
      [Effect.toast "Please login or sign up to upload PDF files"] :=
  ⟨by decide, rfl,
   (C9_auth_gate (ChatState.mk [] "hello" false) (by decide) rfl).2.2.1,
   (C9_auth_gate (ChatState.mk [] "hello" false) (by decide) rfl).1⟩

/-- C10: a selected file over 50 MB or with a non-audio MIME type makes the
audio change handler return right after an alert: the effect list is exactly
one alert, so no upload request is dispatched, and the widget state is
returned untouched. -/
theorem C10_audio_validation (f : JsFile) (st : AudioWidgetState)
    (h : f.size > 50 * 1024 * 1024 ∨ f.mime.startsWith "audio/" = false) :
    (audioHandleFileChange f st).2 = st ∧
    (∃ m, (audioHandleFileChange f st).1 = [Effect.alert m]) ∧
    (∀ u, Effect.request u ∉ (audioHandleFileChange f st).1) := by
  unfold audioHandleFileChange
  by_cases hs : f.size > 50 * 1024 * 1024
  · rw [if_pos hs]
    exact ⟨rfl, ⟨_, rfl⟩, by intro u hu; simp at hu⟩
  · rcases h with h | h
    · exact absurd h hs
    · rw [if_neg hs, if_pos (by rw [h]; decide)]
      exact ⟨rfl, ⟨_, rfl⟩, by intro u hu; simp at hu⟩

/-- C10 witness: an oversized audio file is rejected with an alert and the
widget state is unchanged. -/
theorem C10_witness :
    ((JsFile.mk "big.mp3" 60000000 "audio/mpeg").size > 50 * 1024 * 1024 ∨
      (JsFile.mk "big.mp3" 60000000 "audio/mpeg").mime.startsWith "audio/" = false) ∧
    (audioHandleFileChange (JsFile.mk "big.mp3" 60000000 "audio/mpeg")
      (AudioWidgetState.mk none false false false false 0 "")).2 =
      AudioWidgetState.mk none false false false false 0 "" ∧
    (∃ m, (audioHandleFileChange (JsFile.mk "big.mp3" 60000000 "audio/mpeg")
      (AudioWidgetState.mk none false false false false 0 "")).1 = [Effect.alert m]) :=
  ⟨Or.inl (by decide),
   (C10_audio_validation (JsFile.mk "big.mp3" 60000000 "audio/mpeg")
     (AudioWidgetState.mk none false false false false 0 "") (Or.inl (by decide))).1,
   (C10_audio_validation (JsFile.mk "big.mp3" 60000000 "audio/mpeg")
     (AudioWidgetState.mk none false false false false 0 "") (Or.inl (by decide))).2.1⟩

end DocuMind
